import Mathlib

/-!
# Shallow embedding of the voting-app backend core

This file embeds, in Lean, the vote-admission and result-aggregation core of
the voting-app backend (Node/Express over Postgres and Redis):

* `config/database` — the `vote_records` schema (in particular its
  `UNIQUE(user_id, poll_id)` constraint) and the `updateVoteCount` helper,
  which opens its **own** pooled connection and transaction;
* `config/redis` — the fail-open cache operations `hasVotedToday`,
  `markAsVoted`, `cachePollResults`, `getCachedPollResults`,
  `isTokenBlacklisted`, `blacklistToken`;
* `routes/votes` — the vote-cast handler (`POST /`), embedded as `castVote`;
* `routes/polls` — the single-poll results handler (`GET /:id`), embedded as
  `getResults`.

Timestamps are modelled as natural numbers (milliseconds since the Unix
epoch).  The Postgres server timezone is taken to be UTC, so `DATE(ts)` and
JavaScript's `toISOString().split('T')[0]` both reduce to the UTC day index
`ts / msPerDay`; the `YYYY-MM-DD` strings appearing in Redis keys are an
injective image of that day index and are modelled by it.  Redis keys are
strings built by concatenation exactly as in the source; entries carry their
absolute expiry instant, modelling `setEx`'s time-to-live.  A cache that is
unreachable (every Redis call inside a `try` block throws) is the state
`CacheState.down`.
-/

/-- Milliseconds per calendar day. -/
def msPerDay : Nat := 86400000

/-- UTC calendar-day index of a timestamp, modelling the JavaScript
`new Date(ts).toISOString().split('T')[0]` date component used in the Redis
vote-marker key (`config/redis`, `hasVotedToday` / `markAsVoted`). -/
def jsUtcDay (ts : Nat) : Nat := ts / msPerDay

/-- Calendar-day index computed by the Postgres `DATE(voted_at)` /
`CURRENT_DATE` expressions in the voted-today queries, with the server
timezone taken as UTC. -/
def pgDate (ts : Nat) : Nat := ts / msPerDay

/-- A row of the `polls` table (the columns the vote/result core reads). -/
structure Poll where
  id : Nat
  title : String
  isActive : Bool
  endDate : Option Nat
  creatorId : Nat
  deriving Repr, DecidableEq

/-- A row of the `poll_options` table; `voteCount` is the stored
`vote_count` counter column. -/
structure PollOption where
  id : Nat
  pollId : Nat
  text : String
  voteCount : Nat
  deriving Repr, DecidableEq

/-- A row of the `vote_records` table. -/
structure VoteRecord where
  id : Nat
  userId : Nat
  pollId : Nat
  optionId : Nat
  votedAt : Nat
  deriving Repr, DecidableEq

/-- The committed state of the durable store (the three tables the core
touches), plus the id the next inserted vote record receives. -/
structure DB where
  polls : List Poll
  options : List PollOption
  votes : List VoteRecord
  nextVoteId : Nat
  deriving Repr, DecidableEq

/-- One option of the assembled poll-results view (`routes/polls`,
`GET /:id`): `voteCount` is `parseInt(actual_vote_count)` — the live count —
and `percentage` is `Math.round((actual_vote_count / totalVotes) * 100)`. -/
structure OptionView where
  id : Nat
  text : String
  voteCount : Nat
  percentage : Nat
  deriving Repr, DecidableEq

/-- The poll-results view assembled by `GET /:id` and cached via
`cachePollResults`.  `hasVotedToday` and `canEdit` are computed for the
requesting user (`req.user`) at assembly time. -/
structure PollResultView where
  pollId : Nat
  title : String
  totalVotes : Nat
  hasVotedToday : Bool
  canEdit : Bool
  optionsView : List OptionView
  deriving Repr, DecidableEq

/-- The values the core writes into Redis: the string `'voted'` of the
same-day marker, a JSON-serialised `PollResultView`, and the string
`'blacklisted'` of the token blacklist. -/
inductive CacheVal where
  | voted : CacheVal
  | results : PollResultView → CacheVal
  | blacklisted : CacheVal
  deriving Repr, DecidableEq

/-- A live Redis entry: key, value, and absolute expiry instant (ms). -/
structure CacheEntry where
  key : String
  val : CacheVal
  expiresAt : Nat
  deriving Repr, DecidableEq

/-- The Redis client state as the core sees it: `down` when the client is
unreachable or not ready (every operation inside the `try` throws, or the
`isReady` guard fails), `up` with the current entries otherwise. -/
inductive CacheState where
  | down : CacheState
  | up : List CacheEntry → CacheState
  deriving Repr, DecidableEq

/-- Models `client.get key` at instant `now`: the stored value if the key is
present and unexpired. -/
def cacheRawGet (entries : List CacheEntry) (now : Nat) (key : String) :
    Option CacheVal :=
  match entries.find? (fun e => e.key = key) with
  | some e => if now < e.expiresAt then some e.val else none
  | none => none

/-- Models `client.setEx key ttl val` at instant `now` (`ttl` in seconds):
overwrites the key with an expiry `ttl` seconds from now. -/
def cacheRawSetEx (entries : List CacheEntry) (now : Nat) (key : String)
    (ttl : Nat) (val : CacheVal) : List CacheEntry :=
  ⟨key, val, now + ttl * 1000⟩ :: entries.filter (fun e => e.key ≠ key)

/-- Models `client.del key`. -/
def cacheRawDel (entries : List CacheEntry) (key : String) :
    List CacheEntry :=
  entries.filter (fun e => e.key ≠ key)

/-- The Redis vote-marker key `vote:userId:pollId:YYYY-MM-DD`
(`config/redis`); the date component is modelled by the UTC day index. -/
def voteMarkerKey (userId pollId : Nat) (now : Nat) : String :=
  "vote:" ++ toString userId ++ ":" ++ toString pollId ++ ":"
    ++ toString (jsUtcDay now)

/-- Function `hasVotedToday(userId, pollId)` from `config/redis`: reads the
same-day marker; on any Redis error returns `false` (fail open). -/
def hasVotedToday (c : CacheState) (now userId pollId : Nat) : Bool :=
  match c with
  | .down => false
  | .up entries =>
      match cacheRawGet entries now (voteMarkerKey userId pollId now) with
      | some .voted => true
      | _ => false

/-- Function `markAsVoted(userId, pollId)` from `config/redis`: sets the same-day
marker with a 25-hour expiry; on any Redis error does nothing. -/
def markAsVoted (c : CacheState) (now userId pollId : Nat) : CacheState :=
  match c with
  | .down => .down
  | .up entries =>
      .up (cacheRawSetEx entries now (voteMarkerKey userId pollId now)
        (25 * 60 * 60) .voted)

/-- The Redis poll-results key `poll_results:pollId`. -/
def pollResultsKey (pollId : Nat) : String :=
  "poll_results:" ++ toString pollId

/-- Function `cachePollResults(pollId, results, ttl = 300)` from `config/redis`:
stores the serialised view; on any Redis error does nothing. -/
def cachePollResults (c : CacheState) (now pollId : Nat)
    (results : PollResultView) (ttl : Nat) : CacheState :=
  match c with
  | .down => .down
  | .up entries =>
      .up (cacheRawSetEx entries now (pollResultsKey pollId) ttl
        (.results results))

/-- Function `getCachedPollResults(pollId)` from `config/redis`: reads and parses the
cached view; on any Redis error returns `null`. -/
def getCachedPollResults (c : CacheState) (now pollId : Nat) :
    Option PollResultView :=
  match c with
  | .down => none
  | .up entries =>
      match cacheRawGet entries now (pollResultsKey pollId) with
      | some (.results v) => some v
      | _ => none

/-- The string the JavaScript engine produces for the template interpolation
of the `blacklistToken` function object itself — its source text.  The exact
characters are irrelevant to the behaviour; what matters, and what the model
keeps, is that it is one fixed string that does not depend on the token
argument. -/
def blacklistTokenSource : String :=
  "async (token, expirationTime) => [function body]"

/-- Function `blacklistToken(token, expirationTime)` from `config/redis`.  The key is
built from the function reference itself, not from `token`:
the source reads `const key = ` followed by the template
`blacklist:` + `blacklistToken` (the function object), so the token argument
never reaches the key.  Skips silently when the client is not ready. -/
def blacklistToken (c : CacheState) (now : Nat) (_token : String)
    (expirationTime : Nat) : CacheState :=
  match c with
  | .down => .down
  | .up entries =>
      .up (cacheRawSetEx entries now ("blacklist:" ++ blacklistTokenSource)
        expirationTime .blacklisted)

/-- Function `isTokenBlacklisted(token)` from `config/redis`: reads
`blacklist:` + `token`; returns `false` when the client is not ready or on
error. -/
def isTokenBlacklisted (c : CacheState) (now : Nat) (token : String) : Bool :=
  match c with
  | .down => false
  | .up entries =>
      match cacheRawGet entries now ("blacklist:" ++ token) with
      | some .blacklisted => true
      | _ => false

/-- Query `SELECT ... FROM polls WHERE id = pollId` (single row). -/
def findPoll (db : DB) (pollId : Nat) : Option Poll :=
  db.polls.find? (fun pl => pl.id = pollId)

/-- Query `SELECT id FROM poll_options WHERE id = optionId AND poll_id = pollId`
(non-emptiness of the result, `routes/votes`). -/
def optionBelongs (db : DB) (optionId pollId : Nat) : Bool :=
  db.options.any (fun o => o.id = optionId && o.pollId = pollId)

/-- Query `SELECT id FROM vote_records WHERE user_id = .. AND poll_id = .. AND
DATE(voted_at) = CURRENT_DATE` (non-emptiness of the result): the
authoritative voted-today re-check of `routes/votes`. -/
def votedTodayDb (db : DB) (userId pollId now : Nat) : Bool :=
  db.votes.any (fun r2 =>
    r2.userId = userId && r2.pollId = pollId && pgDate r2.votedAt = pgDate now)

/-- Whether inserting a vote for `(userId, pollId)` violates the
`UNIQUE(user_id, poll_id)` constraint that `initDatabase`
(`config/database`) declares on `vote_records` — note the constraint has no
day component. -/
def uniqueViolation (db : DB) (userId pollId : Nat) : Bool :=
  db.votes.any (fun r2 => r2.userId = userId && r2.pollId = pollId)

/-- Live number of committed `vote_records` rows referencing an option
(`SELECT COUNT(*) FROM vote_records WHERE option_id = optionId`). -/
def liveOptionCount (db : DB) (optionId : Nat) : Nat :=
  (db.votes.filter (fun r2 => r2.optionId = optionId)).length

/-- Live number of committed `vote_records` rows for a poll
(`SELECT COUNT(*) FROM vote_records WHERE poll_id = pollId`). -/
def livePollCount (db : DB) (pollId : Nat) : Nat :=
  (db.votes.filter (fun r2 => r2.pollId = pollId)).length

/-- Function `updateVoteCount(optionId)` from `config/database`.  It checks a fresh
connection out of the pool and runs `BEGIN` / `SELECT COUNT(*)` / `UPDATE`
/ `COMMIT` on it — its own transaction, separate from any transaction the
caller holds open, so the count it reads is over **committed** rows only. -/
def updateVoteCount (db : DB) (optionId : Nat) : DB :=
  let cnt := liveOptionCount db optionId
  { db with
    options := db.options.map (fun o =>
      if o.id = optionId then { o with voteCount := cnt } else o) }

/-- The typed outcome of one vote-cast attempt (`routes/votes`, `POST /`).
The three `alreadyVoted*` constructors record which of the three checks
rejected (Redis marker, voted-today query, or the 23505
constraint-violation caught on `INSERT`); all three answer 429 to the
client. -/
inductive VoteOutcome where
  | notFound : VoteOutcome
  | pollInactive : VoteOutcome
  | pollEnded : VoteOutcome
  | invalidOption : VoteOutcome
  | alreadyVotedCache : VoteOutcome
  | alreadyVotedDb : VoteOutcome
  | alreadyVotedConstraint : VoteOutcome
  | success : VoteRecord → VoteOutcome
  deriving Repr, DecidableEq

/-- Whether an outcome is a failure (any non-2xx branch of the handler). -/
def VoteOutcome.isFailure : VoteOutcome → Bool
  | .success _ => false
  | _ => true

/-- The HTTP status each branch of the vote handler responds with
(`routes/votes`, `POST /`). -/
def voteHttpStatus : VoteOutcome → Nat
  | .notFound => 404
  | .pollInactive => 400
  | .pollEnded => 400
  | .invalidOption => 400
  | .alreadyVotedCache => 429
  | .alreadyVotedDb => 429
  | .alreadyVotedConstraint => 429
  | .success _ => 201

/-- The errors the vote handler's `catch` block can receive from the store
during the transaction. -/
inductive StoreError where
  | uniqueViolation23505 : StoreError
  | transient : StoreError
  deriving Repr, DecidableEq

/-- The `catch` block of the vote handler: rolls back, then answers 429 when
`error.code === '23505'` and 500 otherwise. -/
def voteCatchStatus : StoreError → Nat
  | .uniqueViolation23505 => 429
  | .transient => 500

/-- The state triple a vote-cast attempt returns: the handler's outcome and
the committed store and cache states after it. -/
structure CastResult where
  outcome : VoteOutcome
  db : DB
  cache : CacheState
  deriving Repr, DecidableEq

/-- The poll-ended test of the vote handler:
`poll.end_date && new Date(poll.end_date) < new Date()` — a strict
comparison, false when there is no end date. -/
def pollEndedCheck : Option Nat → Nat → Bool
  | none, _ => false
  | some e, now => e < now

/-- Handler `POST /` of `routes/votes` — one vote-cast attempt, in the handler's
own order:
poll lookup (404), `is_active` (400), `end_date && end_date < now` (400),
option-belongs lookup (400), Redis marker (429), voted-today query (429),
then `INSERT INTO vote_records`; a 23505 unique-violation thrown by the
insert is caught and answered 429 with the transaction rolled back.  On the
success path the handler then calls `updateVoteCount` — which commits its
count of previously committed rows on its own connection — then
`markAsVoted`, then `COMMIT` (making the new row durable), then deletes the
`poll_results` cache key.  Every failure path runs `ROLLBACK`, leaving the
store unchanged. -/
def castVote (db : DB) (cache : CacheState)
    (now userId pollId optionId : Nat) : CastResult :=
  match findPoll db pollId with
  | none => ⟨.notFound, db, cache⟩
  | some poll =>
    if poll.isActive = false then ⟨.pollInactive, db, cache⟩
    else if pollEndedCheck poll.endDate now then ⟨.pollEnded, db, cache⟩
    else if optionBelongs db optionId pollId = false then
      ⟨.invalidOption, db, cache⟩
    else if hasVotedToday cache now userId pollId then
      ⟨.alreadyVotedCache, db, cache⟩
    else if votedTodayDb db userId pollId now then
      ⟨.alreadyVotedDb, db, cache⟩
    else if uniqueViolation db userId pollId then
      ⟨.alreadyVotedConstraint, db, cache⟩
    else
      let newRec : VoteRecord :=
        ⟨db.nextVoteId, userId, pollId, optionId, now⟩
      let db1 := updateVoteCount db optionId
      let cache1 := markAsVoted cache now userId pollId
      let db2 : DB :=
        { db1 with votes := db1.votes ++ [newRec],
                   nextVoteId := db1.nextVoteId + 1 }
      let cache2 :=
        match cache1 with
        | .down => .down
        | .up entries => CacheState.up (cacheRawDel entries (pollResultsKey pollId))
      ⟨.success newRec, db2, cache2⟩

/-- JavaScript `Math.round((a / t) * 100)` for natural counts `a ≤ t`,
`t > 0`, computed exactly: round-half-up of the rational `100 * a / t`. -/
def jsRound100 (a t : Nat) : Nat := (200 * a + t) / (2 * t)

/-- The per-option rows of the results view: the options of the poll in
table order, each with its live vote count (`COUNT(vr.id)` of the
`LEFT JOIN`, aliased `actual_vote_count`) and its rounded percentage, 0 when
the poll has no votes (`routes/polls`, `GET /:id`). -/
def optionViewsOf (db : DB) (pollId totalVotes : Nat) : List OptionView :=
  (db.options.filter (fun o => o.pollId = pollId)).map (fun o =>
    { id := o.id
      text := o.text
      voteCount := liveOptionCount db o.id
      percentage :=
        if 0 < totalVotes then jsRound100 (liveOptionCount db o.id) totalVotes
        else 0 })

/-- The cache-miss path of `GET /:id` (`routes/polls`): load the poll, count
votes live, compute `hasVotedToday` for the requesting user when one is
authenticated (`req.user`), compute `canEdit` as
`req.user?.userId === poll.creator_id`, and assemble the view.  Returns
`none` when the poll does not exist (the 404 branch). -/
def computeResults (db : DB) (now : Nat) (requester : Option Nat)
    (pollId : Nat) : Option PollResultView :=
  match findPoll db pollId with
  | none => none
  | some poll =>
    let totalVotes := livePollCount db pollId
    let hv :=
      match requester with
      | some uid => votedTodayDb db uid pollId now
      | none => false
    some
      { pollId := pollId
        title := poll.title
        totalVotes := totalVotes
        hasVotedToday := hv
        canEdit := requester = some poll.creatorId
        optionsView := optionViewsOf db pollId totalVotes }

/-- The outcome of `GET /:id`: 404 or the JSON view. -/
inductive ResultsOutcome where
  | notFound : ResultsOutcome
  | ok : PollResultView → ResultsOutcome
  deriving Repr, DecidableEq

/-- Handler `GET /:id` of `routes/polls` — the result aggregator.  Checks the cache
first and returns a hit verbatim; on a miss computes the view from the
store, caches it for 300 seconds via `cachePollResults`, and returns it.
The second component is the cache state after the call. -/
def getResults (db : DB) (cache : CacheState) (now : Nat)
    (requester : Option Nat) (pollId : Nat) :
    ResultsOutcome × CacheState :=
  match getCachedPollResults cache now pollId with
  | some v => (.ok v, cache)
  | none =>
    match computeResults db now requester pollId with
    | none => (.notFound, cache)
    | some v => (.ok v, cachePollResults cache now pollId v 300)

/-- Written from the claim's wording (refinement spec, not from the code):
the failure of the first precondition that fails, checked in the fixed order
(1) poll exists, (2) poll active, (3) poll not ended, (4) option exists and
belongs to the poll, (5) no cached same-day marker, (6) no VoteRecord for
(voter, poll) today in the store, and finally the store
uniqueness-constraint violation on the insert reported as
`AlreadyVotedToday`; `none` when every check passes. -/
def specFirstFailingCheck (db : DB) (cache : CacheState)
    (now userId pollId optionId : Nat) : Option VoteOutcome :=
  match findPoll db pollId with
  | none => some .notFound
  | some poll =>
    if poll.isActive = false then some .pollInactive
    else if pollEndedCheck poll.endDate now then some .pollEnded
    else if optionBelongs db optionId pollId = false then some .invalidOption
    else if hasVotedToday cache now userId pollId then
      some .alreadyVotedCache
    else if votedTodayDb db userId pollId now then some .alreadyVotedDb
    else if uniqueViolation db userId pollId then
      some .alreadyVotedConstraint
    else none

/-- Written from the claim's wording (refinement spec): a vote-cast attempt
against the store alone, with every cache interaction removed — the checks
of `castVote` minus the Redis-marker check, and no marker or snapshot
write.  Used to compare with `castVote` run against an unavailable cache. -/
def castVoteStoreOnly (db : DB) (now userId pollId optionId : Nat) :
    VoteOutcome × DB :=
  match findPoll db pollId with
  | none => (.notFound, db)
  | some poll =>
    if poll.isActive = false then (.pollInactive, db)
    else if pollEndedCheck poll.endDate now then (.pollEnded, db)
    else if optionBelongs db optionId pollId = false then
      (.invalidOption, db)
    else if votedTodayDb db userId pollId now then (.alreadyVotedDb, db)
    else if uniqueViolation db userId pollId then
      (.alreadyVotedConstraint, db)
    else
      let newRec : VoteRecord :=
        ⟨db.nextVoteId, userId, pollId, optionId, now⟩
      let db1 := updateVoteCount db optionId
      (.success newRec,
        { db1 with votes := db1.votes ++ [newRec],
                   nextVoteId := db1.nextVoteId + 1 })

/-- The store with every option's stored `vote_count` counter replaced by an
arbitrary value: used to state that the results view never reads the stored
counter. -/
def withStoredCounts (db : DB) (f : PollOption → Nat) : DB :=
  { db with options := db.options.map (fun o => { o with voteCount := f o }) }

/-! ## Concrete fixtures

Small concrete stores used by the counterexample and witness theorems. -/

/-- An active poll with no end date, created by user 9. -/
def pollA : Poll := ⟨1, "P1", true, none, 9⟩

/-- Option `A` of `pollA` (stored counter 0). -/
def optionA : PollOption := ⟨10, 1, "A", 0⟩

/-- Option `B` of `pollA` (stored counter 0). -/
def optionB : PollOption := ⟨11, 1, "B", 0⟩

/-- A store holding `pollA` with one option and no votes. -/
def dbFresh : DB := ⟨[pollA], [optionA], [], 100⟩

/-- User 7's vote on `pollA` cast at the epoch (UTC day 0). -/
def recYesterday : VoteRecord := ⟨100, 7, 1, 10, 0⟩

/-- A store in which user 7 voted on `pollA` on UTC day 0. -/
def dbYesterday : DB := ⟨[pollA], [optionA], [recYesterday], 101⟩

/-- Noon of UTC day 1 — the calendar day after `recYesterday.votedAt`,
and 36 hours after it, past the marker's 25-hour expiry. -/
def dayOneNoon : Nat := msPerDay + 43200000

/-- A store in which `pollA` has two options with three votes for `A`
and one vote for `B`, by four distinct users. -/
def dbExample : DB :=
  ⟨[pollA], [optionA, optionB],
    [⟨100, 2, 1, 10, 1000⟩, ⟨101, 3, 1, 10, 2000⟩,
     ⟨102, 4, 1, 10, 3000⟩, ⟨103, 5, 1, 11, 4000⟩], 104⟩

/-- An active poll whose end timestamp is the instant 5000. -/
def pollEnding : Poll := ⟨2, "P2", true, some 5000, 9⟩

/-- The single option of `pollEnding`. -/
def optionE : PollOption := ⟨20, 2, "E", 0⟩

/-- A store holding `pollEnding` and no votes. -/
def dbEnding : DB := ⟨[pollEnding], [optionE], [], 100⟩

/-- A store in which user 9 — the creator of `pollA` — voted on it at the
epoch. -/
def dbVoted : DB := ⟨[pollA], [optionA], [⟨100, 9, 1, 10, 0⟩], 101⟩

/-- A stale snapshot of `pollA`'s results, as cached before a vote. -/
def staleView : PollResultView := ⟨1, "P1", 0, false, false, []⟩

/-- The results view user 9 computes for `pollA` in `dbVoted` at the epoch:
one vote, marked as voted today, editable (9 is the creator). -/
def viewOfCreator : PollResultView := ⟨1, "P1", 1, true, true, [⟨10, "A", 1, 100⟩]⟩

/-! ## Helper lemmas -/

/-- Looking a key up after filtering that key out finds nothing. -/
theorem find?_filter_key_self (l : List CacheEntry) (k : String) :
    (l.filter (fun e => e.key ≠ k)).find? (fun e => e.key = k) = none := by
  induction l with
  | nil => rfl
  | cons e t ih =>
    rw [List.filter_cons]
    by_cases h : e.key = k
    · have hq : decide (e.key ≠ k) = false := by simp [h]
      rw [hq, if_neg Bool.false_ne_true]
      exact ih
    · have hq : decide (e.key ≠ k) = true := by simp [h]
      rw [hq, if_pos rfl]
      rw [List.find?_cons_of_neg _ (by simpa using h)]
      exact ih

/-- Filtering out a different key does not change a key lookup. -/
theorem find?_filter_key_other (l : List CacheEntry) (k k' : String)
    (h : k ≠ k') :
    (l.filter (fun e => e.key ≠ k')).find? (fun e => e.key = k)
      = l.find? (fun e => e.key = k) := by
  induction l with
  | nil => rfl
  | cons e t ih =>
    rw [List.filter_cons]
    by_cases hk' : e.key = k'
    · have hq : decide (e.key ≠ k') = false := by simp [hk']
      rw [hq, if_neg Bool.false_ne_true]
      have hne : ¬ e.key = k := fun hc => h (hc ▸ hk')
      rw [List.find?_cons_of_neg _ (by simpa using hne)]
      exact ih
    · have hq : decide (e.key ≠ k') = true := by simp [hk']
      rw [hq, if_pos rfl]
      by_cases hk : e.key = k
      · rw [List.find?_cons_of_pos _ (by simpa using hk),
          List.find?_cons_of_pos _ (by simpa using hk)]
      · rw [List.find?_cons_of_neg _ (by simpa using hk),
          List.find?_cons_of_neg _ (by simpa using hk)]
        exact ih

/-- Left-cancellation for string concatenation. -/
theorem string_append_left_cancel {p s t : String} (h : p ++ s = p ++ t) :
    s = t := by
  have hd : (p ++ s).data = (p ++ t).data := congrArg String.data h
  simp only [String.data_append] at hd
  exact congrArg String.mk (List.append_cancel_left hd)

/-! ## Claim theorems -/

/-- C1: Evaluation of the code at the claim's scenario: user 7's only
vote on poll 1 is on the previous UTC calendar day (`recYesterday`, day 0);
at noon of day 1, with the poll active and the option valid, neither the
cache marker nor the voted-today query sees a vote today, yet `castVote`
fails with the constraint-detected `AlreadyVotedToday` (HTTP 429) and
persists nothing, because the `vote_records` uniqueness constraint is
`UNIQUE(user_id, poll_id)` with no day component — the claim says this call
succeeds and persists a new record. -/
theorem castVote_nextDay_rejectedByUniqueConstraint :
    (castVote dbYesterday (.up []) dayOneNoon 7 1 10).outcome
        = .alreadyVotedConstraint
      ∧ (castVote dbYesterday (.up []) dayOneNoon 7 1 10).db = dbYesterday
      ∧ voteHttpStatus
          (castVote dbYesterday (.up []) dayOneNoon 7 1 10).outcome = 429
      ∧ hasVotedToday (.up []) dayOneNoon 7 1 = false
      ∧ votedTodayDb dbYesterday 7 1 dayOneNoon = false
      ∧ pgDate recYesterday.votedAt ≠ pgDate dayOneNoon := by decide

/-- C2: Evaluation of the code at a failing input: a successful vote
into a fresh store leaves the option's stored `vote_count` at 0 while one
vote record references the option.  `updateVoteCount` checks a fresh
connection out of the pool and commits its own transaction, so the count it
writes is over previously committed rows and excludes the record the
still-open vote transaction is inserting — the claimed atomic
"count including the one just inserted" does not hold. -/
theorem voteCount_misses_justInsertedRecord :
    (castVote dbFresh (.up []) 0 7 1 10).outcome
        = .success ⟨100, 7, 1, 10, 0⟩
      ∧ (castVote dbFresh (.up []) 0 7 1 10).db.options.map
          PollOption.voteCount = [0]
      ∧ liveOptionCount (castVote dbFresh (.up []) 0 7 1 10).db 10 = 1 := by
  decide

/-- C4: The day derivations of the cache-marker key and of the
voted-today queries agree (both are the UTC day of the timestamp), but the
store's uniqueness constraint has no day component at all: for user 7's
day-0 vote on poll 1 seen at noon of day 1, both the marker layer and the
query layer classify the old vote as "not today", yet the
`UNIQUE(user_id, poll_id)` constraint still counts it as a conflict — so
the constraint's implicit day ("all time") disagrees with the other
layers' day for this instant. -/
theorem uniqueConstraint_ignores_calendarDay :
    jsUtcDay dayOneNoon = pgDate dayOneNoon
      ∧ jsUtcDay recYesterday.votedAt = pgDate recYesterday.votedAt
      ∧ pgDate recYesterday.votedAt ≠ pgDate dayOneNoon
      ∧ hasVotedToday
          (markAsVoted (.up []) recYesterday.votedAt 7 1) dayOneNoon 7 1
          = false
      ∧ votedTodayDb dbYesterday 7 1 dayOneNoon = false
      ∧ uniqueViolation dbYesterday 7 1 = true := by decide

/-- C8 (counterexample): A poll whose end timestamp is exactly the
current instant does **not** fail with `PollEnded`: the handler's test is
the strict `new Date(poll.end_date) < new Date()`, so at `now = end_date`
the vote is accepted. -/
theorem castVote_atExactEnd_succeeds :
    (castVote dbEnding (.up []) 5000 7 2 20).outcome
        = .success ⟨100, 7, 2, 20, 5000⟩
      ∧ (castVote dbEnding (.up []) 5000 7 2 20).outcome ≠ .pollEnded := by
  decide

/-- C3: The vote handler evaluates its preconditions in the claim's
fixed order and returns the failure of the first check that fails, with the
transaction rolled back (store and cache unchanged) on every failure path;
the branch statuses map `NotFound` to 404, `PollInactive` / `PollEnded` /
`InvalidOption` to 400, every `AlreadyVotedToday` variant — including the
uniqueness-constraint violation caught on the insert — to 429; and the
catch-all for other store errors answers 500. -/
theorem castVote_first_failing_check :
    ∀ (db : DB) (cache : CacheState) (now userId pollId optionId : Nat),
      (∀ f, specFirstFailingCheck db cache now userId pollId optionId
            = some f →
          castVote db cache now userId pollId optionId = ⟨f, db, cache⟩)
      ∧ (specFirstFailingCheck db cache now userId pollId optionId = none →
          (castVote db cache now userId pollId optionId).outcome
            = .success ⟨db.nextVoteId, userId, pollId, optionId, now⟩)
      ∧ voteHttpStatus .notFound = 404
      ∧ voteHttpStatus .pollInactive = 400
      ∧ voteHttpStatus .pollEnded = 400
      ∧ voteHttpStatus .invalidOption = 400
      ∧ voteHttpStatus .alreadyVotedCache = 429
      ∧ voteHttpStatus .alreadyVotedDb = 429
      ∧ voteHttpStatus .alreadyVotedConstraint = 429
      ∧ voteCatchStatus .uniqueViolation23505 = 429
      ∧ voteCatchStatus .transient = 500 := by
  intro db cache now userId pollId optionId
  refine ⟨?_, ?_, rfl, rfl, rfl, rfl, rfl, rfl, rfl, rfl, rfl⟩
  · intro f hf
    unfold specFirstFailingCheck at hf
    unfold castVote
    cases h : findPoll db pollId with
    | none => rw [h] at hf; injection hf with hf; rw [hf]
    | some poll =>
      rw [h] at hf
      dsimp only at hf ⊢
      split_ifs at hf ⊢ <;> simp_all
  · intro hf
    unfold specFirstFailingCheck at hf
    unfold castVote
    cases h : findPoll db pollId with
    | none => rw [h] at hf; exact absurd hf (by simp)
    | some poll =>
      rw [h] at hf
      dsimp only at hf ⊢
      split_ifs at hf ⊢ <;> simp_all

/-- C3 (witness): The order theorem applied at two concrete inputs: a
store where user 7 voted the previous day (the constraint check is the
first to fail, yielding `AlreadyVotedToday` with the store and cache
unchanged), and a fresh store (no check fails, the vote succeeds). -/
theorem castVote_first_failing_check_witness :
    castVote dbYesterday (.up []) dayOneNoon 7 1 10
        = ⟨.alreadyVotedConstraint, dbYesterday, .up []⟩
      ∧ (castVote dbFresh (.up []) 0 7 1 10).outcome
        = .success ⟨100, 7, 1, 10, 0⟩ :=
  ⟨(castVote_first_failing_check dbYesterday (.up []) dayOneNoon 7 1 10).1
      .alreadyVotedConstraint (by decide),
    (castVote_first_failing_check dbFresh (.up []) 0 7 1 10).2.1 (by decide)⟩

/-- C5: Every cache operation the core uses fails open when the cache
is unreachable — reads return absent (`false` / `none`), writes are no-ops
— and with the cache entirely unavailable, `castVote` produces the same
outcome and store effect as the store-only vote path, and `getResults`
returns exactly the store-computed view: cache absence never changes an
outcome. -/
theorem cache_unavailable_failsOpen_outcomesUnchanged :
    ∀ (db : DB) (now userId pollId optionId ttl : Nat) (req : Option Nat)
      (v : PollResultView),
      hasVotedToday .down now userId pollId = false
      ∧ markAsVoted .down now userId pollId = .down
      ∧ cachePollResults .down now pollId v ttl = .down
      ∧ getCachedPollResults .down now pollId = none
      ∧ (castVote db .down now userId pollId optionId).outcome
          = (castVoteStoreOnly db now userId pollId optionId).1
      ∧ (castVote db .down now userId pollId optionId).db
          = (castVoteStoreOnly db now userId pollId optionId).2
      ∧ (getResults db .down now req pollId).1
          = (match computeResults db now req pollId with
             | none => .notFound
             | some v2 => .ok v2) := by
  intro db now userId pollId optionId ttl req v
  refine ⟨rfl, rfl, rfl, rfl, ?_, ?_, ?_⟩
  · unfold castVote castVoteStoreOnly
    cases h : findPoll db pollId with
    | none => rfl
    | some poll =>
      dsimp only
      split_ifs <;> simp_all [hasVotedToday]
  · unfold castVote castVoteStoreOnly
    cases h : findPoll db pollId with
    | none => rfl
    | some poll =>
      dsimp only
      split_ifs <;> simp_all [hasVotedToday]
  · unfold getResults
    cases h : computeResults db now req pollId <;> rfl

/-- Reading a key after deleting it finds nothing. -/
theorem cacheRawGet_del_self (l : List CacheEntry) (now : Nat) (k : String) :
    cacheRawGet (cacheRawDel l k) now k = none := by
  unfold cacheRawGet cacheRawDel
  rw [find?_filter_key_self]

/-- After deleting the `poll_results` key, the cached-results read misses. -/
theorem getCached_after_del (l : List CacheEntry) (t2 p : Nat) :
    getCachedPollResults (.up (cacheRawDel l (pollResultsKey p))) t2 p
      = none := by
  simp only [getCachedPollResults, cacheRawGet_del_self]

/-- A results read that misses the cache, on a store where the poll exists,
returns a view whose total is the live vote count of the poll. -/
theorem getResults_miss_totalVotes (db : DB) (c2 : CacheState)
    (t2 : Nat) (req : Option Nat) (pollId : Nat) (poll : Poll)
    (hfd : findPoll db pollId = some poll)
    (hmiss : getCachedPollResults c2 t2 pollId = none) :
    ∃ v, (getResults db c2 t2 req pollId).1 = .ok v
      ∧ v.totalVotes = livePollCount db pollId := by
  unfold getResults
  rw [hmiss]
  unfold computeResults
  rw [hfd]
  exact ⟨_, rfl, rfl⟩

/-- Appending one vote record for a poll raises its live count by one. -/
theorem livePollCount_append_one (d1 d2 : DB) (r : VoteRecord) (p : Nat)
    (hv : d2.votes = d1.votes ++ [r]) (hp : r.pollId = p) :
    livePollCount d2 p = livePollCount d1 p + 1 := by
  unfold livePollCount
  rw [hv, List.filter_append]
  simp [hp]

/-- C6: After a successful `castVote` on a poll, the poll's cached
result snapshot is deleted — the cached read misses at every later instant,
not merely after expiry — and a subsequent `getResults` on the poll, for
any requester, recomputes from the store and reports a total that includes
the vote just inserted (the pre-vote live count plus one). -/
theorem castVote_success_invalidates_snapshot :
    ∀ (db : DB) (cache : CacheState) (now userId pollId optionId : Nat)
      (r : VoteRecord),
      (castVote db cache now userId pollId optionId).outcome = .success r →
      (∀ t2, getCachedPollResults
          (castVote db cache now userId pollId optionId).cache t2 pollId
            = none)
      ∧ (∀ t2 req, ∃ v,
          (getResults (castVote db cache now userId pollId optionId).db
              (castVote db cache now userId pollId optionId).cache t2 req
              pollId).1 = .ok v
            ∧ v.totalVotes = livePollCount db pollId + 1) := by
  intro db cache now userId pollId optionId r hsucc
  unfold castVote at hsucc ⊢
  cases h : findPoll db pollId with
  | none => rw [h] at hsucc; exact absurd hsucc (by simp)
  | some poll =>
    rw [h] at hsucc
    dsimp only at hsucc ⊢
    split_ifs at hsucc ⊢ <;> try exact VoteOutcome.noConfusion hsucc
    have hinv : ∀ t2, getCachedPollResults
        (match markAsVoted cache now userId pollId with
         | .down => CacheState.down
         | .up entries =>
             CacheState.up (cacheRawDel entries (pollResultsKey pollId)))
        t2 pollId = none := by
      intro t2
      cases cache with
      | down => rfl
      | up entries => exact getCached_after_del _ _ _
    refine ⟨fun t2 => hinv t2, ?_⟩
    intro t2 req
    obtain ⟨v, hok, htv⟩ := getResults_miss_totalVotes
      { updateVoteCount db optionId with
          votes := (updateVoteCount db optionId).votes
            ++ [⟨db.nextVoteId, userId, pollId, optionId, now⟩],
          nextVoteId := (updateVoteCount db optionId).nextVoteId + 1 }
      _ t2 req pollId poll h (hinv t2)
    refine ⟨v, hok, ?_⟩
    rw [htv]
    exact livePollCount_append_one db _
      ⟨db.nextVoteId, userId, pollId, optionId, now⟩ pollId rfl rfl

/-- C6 (witness): The invalidation theorem applied concretely: with a
stale snapshot of poll 1 cached and far from expiry, user 7's successful
vote deletes it (the cached read misses afterwards) and a later
`getResults` by another user reports the live total including the new
vote. -/
theorem castVote_success_invalidates_snapshot_witness :
    getCachedPollResults
        (.up [⟨pollResultsKey 1, .results staleView, 1000000000000⟩]) 0 1
      = some staleView
    ∧ getCachedPollResults
        (castVote dbFresh
          (.up [⟨pollResultsKey 1, .results staleView, 1000000000000⟩])
          0 7 1 10).cache 60000 1 = none
    ∧ ∃ v,
        (getResults
          (castVote dbFresh
            (.up [⟨pollResultsKey 1, .results staleView, 1000000000000⟩])
            0 7 1 10).db
          (castVote dbFresh
            (.up [⟨pollResultsKey 1, .results staleView, 1000000000000⟩])
            0 7 1 10).cache 60000 (some 8) 1).1 = .ok v
        ∧ v.totalVotes = livePollCount dbFresh 1 + 1 :=
  ⟨by decide,
    (castVote_success_invalidates_snapshot dbFresh
      (.up [⟨pollResultsKey 1, .results staleView, 1000000000000⟩])
      0 7 1 10 ⟨100, 7, 1, 10, 0⟩ (by decide)).1 60000,
    (castVote_success_invalidates_snapshot dbFresh
      (.up [⟨pollResultsKey 1, .results staleView, 1000000000000⟩])
      0 7 1 10 ⟨100, 7, 1, 10, 0⟩ (by decide)).2 60000 (some 8)⟩

/-- Rewriting every stored counter commutes with filtering by poll. -/
theorem filter_pollId_map_setCount (l : List PollOption)
    (f : PollOption → Nat) (p : Nat) :
    (l.map (fun o => { o with voteCount := f o })).filter
        (fun o => o.pollId = p)
      = (l.filter (fun o => o.pollId = p)).map
          (fun o => { o with voteCount := f o }) := by
  induction l with
  | nil => rfl
  | cons o t ih =>
    simp only [List.map_cons, List.filter_cons]
    by_cases h : o.pollId = p
    · simp [h, ih]
    · simp [h, ih]

/-- The per-option view rows do not depend on the stored counters. -/
theorem optionViewsOf_withStoredCounts (db : DB) (f : PollOption → Nat)
    (p tv : Nat) :
    optionViewsOf (withStoredCounts db f) p tv = optionViewsOf db p tv := by
  unfold optionViewsOf
  have hopts : (withStoredCounts db f).options
      = db.options.map (fun o => { o with voteCount := f o }) := rfl
  rw [hopts, filter_pollId_map_setCount, List.map_map]
  rfl

/-- C7: On a cache miss, `getResults` answers with the view computed
from the store, whose totals and per-option counts are live counts of vote
records — each option's reported count is the number of records referencing
it, independent of the stored `vote_count` counters — and whose percentage
is the rounded `optionVotes / totalVotes * 100`, 0 for every option when the
poll has no votes; at the claim's example (A=3 votes, B=1 vote) it reports
total 4 with 75% and 25%. -/
theorem getResults_miss_liveCounts_percentages :
    (∀ (db : DB) (c : CacheState) (now : Nat) (req : Option Nat)
        (pollId : Nat) (v : PollResultView),
        getCachedPollResults c now pollId = none →
        computeResults db now req pollId = some v →
        (getResults db c now req pollId).1 = .ok v
        ∧ v.totalVotes = livePollCount db pollId
        ∧ v.optionsView
            = (db.options.filter (fun o => o.pollId = pollId)).map (fun o =>
                { id := o.id, text := o.text,
                  voteCount := liveOptionCount db o.id,
                  percentage :=
                    if 0 < livePollCount db pollId then
                      jsRound100 (liveOptionCount db o.id)
                        (livePollCount db pollId)
                    else 0 }))
    ∧ (∀ (db : DB) (f : PollOption → Nat) (now : Nat) (req : Option Nat)
        (pollId : Nat),
        computeResults (withStoredCounts db f) now req pollId
          = computeResults db now req pollId)
    ∧ (∃ v, computeResults dbExample 0 none 1 = some v
        ∧ v.totalVotes = 4
        ∧ v.optionsView.map OptionView.voteCount = [3, 1]
        ∧ v.optionsView.map OptionView.percentage = [75, 25])
    ∧ (∃ v, computeResults dbFresh 0 none 1 = some v
        ∧ v.totalVotes = 0
        ∧ v.optionsView.map OptionView.percentage = [0]) := by
  refine ⟨?_, ?_,
    ⟨⟨1, "P1", 4, false, false, [⟨10, "A", 3, 75⟩, ⟨11, "B", 1, 25⟩]⟩,
      by decide, by decide, by decide, by decide⟩,
    ⟨⟨1, "P1", 0, false, false, [⟨10, "A", 0, 0⟩]⟩,
      by decide, by decide, by decide⟩⟩
  · intro db c now req pollId v hmiss hcomp
    refine ⟨?_, ?_⟩
    · unfold getResults
      rw [hmiss, hcomp]
    · unfold computeResults at hcomp
      cases h : findPoll db pollId with
      | none => rw [h] at hcomp; exact Option.noConfusion hcomp
      | some poll =>
        rw [h] at hcomp
        dsimp only at hcomp
        injection hcomp with hv
        rw [← hv]
        exact ⟨rfl, rfl⟩
  · intro db f now req pollId
    unfold computeResults
    have hfp : findPoll (withStoredCounts db f) pollId
        = findPoll db pollId := rfl
    rw [hfp]
    cases h : findPoll db pollId with
    | none => rfl
    | some poll =>
      dsimp only
      have hlc : livePollCount (withStoredCounts db f) pollId
          = livePollCount db pollId := rfl
      have hvt : ∀ uid, votedTodayDb (withStoredCounts db f) uid pollId now
          = votedTodayDb db uid pollId now := fun _ => rfl
      rw [hlc, optionViewsOf_withStoredCounts]
      cases req with
      | none => rfl
      | some uid =>
        dsimp only
        rw [hvt uid]

/-- C7 (witness): The miss-path theorem applied at the claim's example
store: three votes for option A and one for B give total 4 with 75% and
25%. -/
theorem getResults_miss_liveCounts_percentages_witness :
    (getResults dbExample (.up []) 0 none 1).1
      = .ok ⟨1, "P1", 4, false, false,
          [⟨10, "A", 3, 75⟩, ⟨11, "B", 1, 25⟩]⟩ :=
  (getResults_miss_liveCounts_percentages.1 dbExample (.up []) 0 none 1
    ⟨1, "P1", 4, false, false, [⟨10, "A", 3, 75⟩, ⟨11, "B", 1, 25⟩]⟩
    rfl (by decide)).1

/-- C8 (amended): `castVote` fails with `PollEnded` exactly when the
poll exists, is active, and has an end timestamp strictly earlier than now
— so a poll whose end timestamp equals the current instant does not fail
with `PollEnded`, and a poll with no end timestamp never does, for every
combination of the remaining inputs. -/
theorem castVote_pollEnded_iff_strictPast :
    ∀ (db : DB) (cache : CacheState) (now userId pollId optionId : Nat),
      (castVote db cache now userId pollId optionId).outcome = .pollEnded
        ↔ ∃ poll, findPoll db pollId = some poll ∧ poll.isActive = true
            ∧ ∃ e, poll.endDate = some e ∧ e < now := by
  intro db cache now userId pollId optionId
  unfold castVote
  cases h : findPoll db pollId with
  | none => simp
  | some poll =>
    dsimp only
    constructor
    · intro hout
      by_cases h1 : poll.isActive = false
      · rw [if_pos h1] at hout
        exact absurd hout (by simp)
      · rw [if_neg h1] at hout
        by_cases h2 : pollEndedCheck poll.endDate now = true
        · cases he : poll.endDate with
          | none =>
            rw [he] at h2
            exact absurd h2 (by simp [pollEndedCheck])
          | some e =>
            refine ⟨poll, rfl, by simpa using h1, e, he, ?_⟩
            rw [he] at h2
            simpa [pollEndedCheck] using h2
        · rw [if_neg h2] at hout
          exfalso
          split_ifs at hout
    · rintro ⟨poll2, hp2, hact, e, hend, hlt⟩
      injection hp2 with hp2
      subst hp2
      rw [if_neg (by simp [hact] : ¬ poll.isActive = false)]
      rw [if_pos
        (by simp [pollEndedCheck, hend, hlt] :
          pollEndedCheck poll.endDate now = true)]

/-- C8 (amended, witness): The amended theorem applied concretely: at
one second past `pollEnding`'s end timestamp, the vote fails with
`PollEnded`. -/
theorem castVote_pollEnded_iff_strictPast_witness :
    (castVote dbEnding (.up []) 6000 7 2 20).outcome = .pollEnded :=
  (castVote_pollEnded_iff_strictPast dbEnding (.up []) 6000 7 2 20).2
    ⟨pollEnding, by decide, rfl, 5000, rfl, by decide⟩

/-- C9: `blacklistToken` builds its storage key from the
`blacklistToken` function reference itself rather than from the token
argument, so for any token other than that fixed source text, blacklisting
it leaves `isTokenBlacklisted` for that token exactly as before — in
particular still `false` for a never-blacklisted token: logout never causes
a token to be rejected as blacklisted. -/
theorem blacklistToken_never_blacklists :
    ∀ (c : CacheState) (now later : Nat) (token : String) (e : Nat),
      0 < e → token ≠ blacklistTokenSource →
      isTokenBlacklisted (blacklistToken c now token e) later token
        = isTokenBlacklisted c later token := by
  intro c now later token e _he hne
  cases c with
  | down => rfl
  | up entries =>
    unfold blacklistToken isTokenBlacklisted
    dsimp only
    have hkeys : "blacklist:" ++ token ≠ "blacklist:" ++ blacklistTokenSource :=
      fun hc => hne (string_append_left_cancel hc)
    unfold cacheRawGet cacheRawSetEx
    rw [List.find?_cons_of_neg _ (by simpa using Ne.symm hkeys)]
    rw [find?_filter_key_other entries ("blacklist:" ++ token)
      ("blacklist:" ++ blacklistTokenSource) hkeys]

/-- C9 (witness): Blacklisting a concrete token and then checking it:
the check still answers `false`. -/
theorem blacklistToken_never_blacklists_witness :
    isTokenBlacklisted
        (blacklistToken (.up []) 0 "header.payload.signature" 3600) 10
        "header.payload.signature"
      = isTokenBlacklisted (.up []) 10 "header.payload.signature"
    ∧ isTokenBlacklisted (.up []) 10 "header.payload.signature" = false :=
  ⟨blacklistToken_never_blacklists (.up []) 0 10 "header.payload.signature"
      3600 (by decide) (by decide), rfl⟩

/-- C10: The snapshot `getResults` caches on a miss carries the
requester-specific `hasVotedToday` and `canEdit` computed for the user who
populated it, and within its time-to-live a cache hit returns that snapshot
verbatim to any caller against any store state — so another user receives
the first user's `hasVotedToday` and `canEdit` values rather than their
own. -/
theorem cachedView_served_verbatim :
    ∀ (db : DB) (entries : List CacheEntry) (now a pollId : Nat)
      (v : PollResultView),
      getCachedPollResults (.up entries) now pollId = none →
      computeResults db now (some a) pollId = some v →
      (∃ poll, findPoll db pollId = some poll
        ∧ v.hasVotedToday = votedTodayDb db a pollId now
        ∧ (v.canEdit = true ↔ a = poll.creatorId))
      ∧ (getResults db (.up entries) now (some a) pollId).1 = .ok v
      ∧ ∀ (db2 : DB) (b : Option Nat) (t2 : Nat),
          t2 < now + 300 * 1000 →
          (getResults db2
              ((getResults db (.up entries) now (some a) pollId).2) t2 b
              pollId).1 = .ok v := by
  intro db entries now a pollId v hmiss hcomp
  have hA : getResults db (.up entries) now (some a) pollId
      = (.ok v, cachePollResults (.up entries) now pollId v 300) := by
    unfold getResults
    rw [hmiss, hcomp]
  refine ⟨?_, ?_, ?_⟩
  · unfold computeResults at hcomp
    cases h : findPoll db pollId with
    | none => rw [h] at hcomp; exact Option.noConfusion hcomp
    | some poll =>
      rw [h] at hcomp
      dsimp only at hcomp
      injection hcomp with hv
      refine ⟨poll, rfl, ?_, ?_⟩
      · rw [← hv]
      · rw [← hv]
        simp
  · rw [hA]
  · intro db2 b t2 ht2
    rw [hA]
    dsimp only
    have hhit : getCachedPollResults
        (cachePollResults (.up entries) now pollId v 300) t2 pollId
        = some v := by
      unfold cachePollResults getCachedPollResults cacheRawGet cacheRawSetEx
      dsimp only
      rw [List.find?_cons_of_pos _ (by simp)]
      dsimp only
      rw [if_pos ht2]
    unfold getResults
    rw [hhit]

/-- C10 (witness): User 9 (the creator, who voted today) populates the
cache for poll 1; one minute later user 8's read — against a different
store — returns user 9's snapshot verbatim, with `hasVotedToday = true` and
`canEdit = true`. -/
theorem cachedView_served_verbatim_witness :
    (getResults dbFresh ((getResults dbVoted (.up []) 0 (some 9) 1).2)
        60000 (some 8) 1).1 = .ok viewOfCreator
    ∧ viewOfCreator.hasVotedToday = true
    ∧ viewOfCreator.canEdit = true :=
  ⟨(cachedView_served_verbatim dbVoted [] 0 9 1 viewOfCreator rfl
      (by decide)).2.2 dbFresh (some 8) 60000 (by decide), rfl, rfl⟩
